import Mathlib

/-!
Shallow embedding of the `websink` GStreamer element (Rust sources
`src/websink/imp.rs` and `src/websink/server.rs`) and proofs about it.

Modelling conventions:
* `u16`/`i32` values are `Nat` (all quantities here are small and
  non-negative; no arithmetic overflows occur in the modelled code).
* Rust `Result<T, E>` becomes `Except String T`; `Option<T>` becomes
  `Option T`.
* Fallible environment effects (TCP bind, WebRTC API calls, JSON parsing)
  are modelled as explicit boolean/optional inputs, since the Rust code
  only branches on their success or failure.
* The peer-connection registry (`HashMap<String, Arc<RTCPeerConnection>>`)
  is modelled by its key set as a duplicate-free association list of
  session ids; only membership and cardinality are observed by the code.
* The bounded peer-count channel is modelled by the list of counts the
  code attempts to `try_send`; whether the channel endpoint exists is a
  boolean (`unblock_tx`).
-/

namespace Websink

/-! ### Settings and properties (imp.rs lines 50-81, 272-339) -/

def DEFAULT_PORT : Nat := 8091

def DEFAULT_STUN_SERVER : String := "stun:stun.l.google.com:19302"

structure Settings where
  port : Nat
  stun_server : String
  is_live : Bool
deriving Repr, DecidableEq

/-- `impl Default for Settings` (imp.rs lines 73-81). -/
def Settings.default : Settings :=
  { port := DEFAULT_PORT
    stun_server := DEFAULT_STUN_SERVER
    is_live := false }

inductive PropValue where
  | uint (n : Nat)
  | str (s : String)
  | boolean (b : Bool)
deriving Repr, DecidableEq

/-- `ObjectImpl::property` (imp.rs lines 323-339): property read-back from
the settings under the settings mutex. -/
def getProperty (s : Settings) : String → Option PropValue
  | "port" => some (.uint s.port)
  | "stun-server" => some (.str s.stun_server)
  | "is-live" => some (.boolean s.is_live)
  | _ => none

/-! ### Pad templates (imp.rs lines 361-381) -/

inductive PadDirection where
  | unknown
  | src
  | sink
deriving Repr, DecidableEq

inductive PadPresence where
  | always
  | sometimes
  | request
deriving Repr, DecidableEq

structure CapsStructure where
  name : String
  fields : List (String × String)
deriving Repr, DecidableEq

structure PadTemplate where
  name : String
  direction : PadDirection
  presence : PadPresence
  caps : List CapsStructure
deriving Repr, DecidableEq

/-- `ElementImpl::pad_templates` (imp.rs lines 361-381): a single static
template named "sink", direction sink, presence Always, whose caps are
`video/x-h264, stream-format=byte-stream, alignment=au`. -/
def pad_templates : List PadTemplate :=
  [{ name := "sink"
     direction := .sink
     presence := .always
     caps := [{ name := "video/x-h264"
                fields := [("stream-format", "byte-stream"), ("alignment", "au")] }] }]

/-! ### Port acquisition (server.rs lines 34-64, `find_available_port`) -/

/-- The probing loop of `find_available_port` (server.rs lines 44-61).
`bindOk p` models whether `TcpListener::bind("127.0.0.1:p")` succeeds.
The `fuel` argument is only a termination measure; callers pass
`maxPort + 1 - port`, which bounds the number of loop iterations. -/
def probeLoop (bindOk : Nat → Bool) (maxPort : Nat) : Nat → Nat → Option Nat
  | 0, _ => none
  | fuel + 1, port =>
    if port ≤ maxPort then
      if bindOk port then some port
      else if port = 65535 then none
      else probeLoop bindOk maxPort fuel (port + 1)
    else none

/-- `find_available_port` (server.rs lines 34-64). `ephemeral` models the
result of binding to port 0 (`none` if the bind itself fails, otherwise the
OS-assigned port); the returned `Option` models `Result` with `none` as the
`NoPortAvailable`-style error. -/
def find_available_port (bindOk : Nat → Bool) (ephemeral : Option Nat)
    (start_port : Nat) : Option Nat :=
  if start_port = 0 then ephemeral
  else
    probeLoop bindOk (min (start_port + 100) 65535)
      (min (start_port + 100) 65535 + 1 - start_port) start_port

/-! ### Signalling: session request handling (imp.rs lines 94-217 and the
identical server.rs lines 120-237) -/

/-- `struct SessionResponse` (imp.rs lines 59-63): exactly two fields,
`answer` and `session_id`. The answer is kept abstract as the JSON text of
the finalised local description. -/
structure SessionResponse where
  answer : String
  session_id : String
deriving Repr, DecidableEq

/-- The serde serialisation of `SessionResponse`: field names in
declaration order, as produced by `#[derive(Serialize)]`. -/
def serializeSessionResponse (r : SessionResponse) : List (String × String) :=
  [("answer", r.answer), ("session_id", r.session_id)]

/-- Outcomes of the fallible environment steps of `handle_session_request`,
in program order: codec registration, interceptor registration, peer
connection creation, track attachment, offer parsing, set-remote,
create-answer, set-local, and the read-back of the local description.
`session_id` is the freshly generated UUID string. -/
structure SessionEnv where
  register_codecs_ok : Bool
  register_interceptors_ok : Bool
  new_peer_connection_ok : Bool
  add_track_ok : Bool
  offer_parse_ok : Bool
  set_remote_ok : Bool
  create_answer_ok : Bool
  set_local_ok : Bool
  local_description : Option String
  session_id : String
deriving Repr, DecidableEq

/-- The part of `struct State` that `handle_session_request` and the
connection-state observer touch: the registry key set, whether the
peer-count sender endpoint exists, and whether the video track and the
WebRTC config have been initialised. -/
structure ServerState where
  peer_connections : List String
  unblock_tx : Bool
  video_track : Bool
  webrtc_config : Bool
deriving Repr, DecidableEq

/-- `HashMap::insert` on the registry key set (fresh UUID keys). -/
def registryInsert (k : String) (l : List String) : List String :=
  if k ∈ l then l else l ++ [k]

/-- `HashMap::remove` on the registry key set. -/
def registryRemove (k : String) (l : List String) : List String :=
  l.erase k

/-- The error-propagating (`?`) prefix of `handle_session_request`
(imp.rs lines 101-154): every step before the registry insertion, in
program order, short-circuiting on the first failure. On success it
returns the finalised local description. -/
def session_steps (env : SessionEnv) (st : ServerState) : Except String String :=
  if st.webrtc_config = false then .error "WebRTC config not initialized"
  else if st.video_track = false then .error "Video track not initialized"
  else if env.register_codecs_ok = false then .error "register_default_codecs failed"
  else if env.register_interceptors_ok = false then .error "register_default_interceptors failed"
  else if env.new_peer_connection_ok = false then .error "new_peer_connection failed"
  else if env.add_track_ok = false then .error "add_track failed"
  else if env.offer_parse_ok = false then .error "offer JSON parse failed"
  else if env.set_remote_ok = false then .error "set_remote_description failed"
  else if env.create_answer_ok = false then .error "create_answer failed"
  else if env.set_local_ok = false then .error "set_local_description failed"
  else
    match env.local_description with
    | none => .error "Failed to get local description"
    | some answer => .ok answer

structure SessionOutcome where
  result : Except String SessionResponse
  state : ServerState
  sent_counts : List Nat
deriving Repr

/-- `handle_session_request` (imp.rs lines 94-217): on any failure the
state is untouched and nothing is sent on the peer-count channel; on
success the session id is inserted into the registry and the new registry
size is try-sent on the channel (when the sender endpoint exists). -/
def handle_session_request (env : SessionEnv) (st : ServerState) : SessionOutcome :=
  match session_steps env st with
  | .error e => { result := .error e, state := st, sent_counts := [] }
  | .ok answer =>
    let pcs := registryInsert env.session_id st.peer_connections
    { result := .ok { answer := answer, session_id := env.session_id }
      state := { st with peer_connections := pcs }
      sent_counts := if st.unblock_tx then [pcs.length] else [] }

/-- HTTP status mapping of the session route (server.rs lines 335-348:
200 with the JSON body on `Ok`, 500 with "Internal Server Error" on
`Err`; the warp route in imp.rs lines 575-584 likewise rejects with a
server-error response on `Err`). -/
def session_http_status : Except String SessionResponse → Nat
  | .ok _ => 200
  | .error _ => 500

/-! ### Connection-state observer (imp.rs lines 175-205, server.rs lines
201-225) -/

inductive RTCPeerConnectionState where
  | unspecified
  | new
  | connecting
  | connected
  | disconnected
  | failed
  | closed
deriving Repr, DecidableEq

/-- The `on_peer_connection_state_change` callback registered for a
session (imp.rs lines 175-205): on Disconnected, Failed or Closed it
removes the session from the registry and try-sends the updated registry
size; every other state only logs. Returns the updated state and the list
of counts sent. -/
def on_peer_connection_state_change (session_id : String)
    (s : RTCPeerConnectionState) (st : ServerState) : ServerState × List Nat :=
  match s with
  | .disconnected | .failed | .closed =>
    let pcs := registryRemove session_id st.peer_connections
    ({ st with peer_connections := pcs },
     if st.unblock_tx then [pcs.length] else [])
  | _ => (st, [])

/-! ### Render (imp.rs lines 489-555) -/

/-- A GStreamer buffer as `render` observes it: the result of
`map_readable` (`none` if mapping fails, otherwise the payload bytes) and
the optional buffer duration in nanoseconds. -/
structure GstBuffer where
  mapResult : Option (List Nat)
  duration : Option Nat
deriving Repr, DecidableEq

/-- The sample handed to the spawned write task (imp.rs lines 529-533). -/
structure MediaSample where
  data : List Nat
  duration : Nat
deriving Repr, DecidableEq

inductive FlowResult where
  | ok
  | error
deriving Repr, DecidableEq

/-- The slice of element state `render` reads: current peer count, and
whether the video track and the runtime are present. -/
structure RenderState where
  num_peers : Nat
  video_track : Bool
  runtime : Bool
deriving Repr, DecidableEq

/-- Observable outcome of one `render` call: the flow return, whether
`map_readable` was invoked, and the sample spawned for the track write
(if any). -/
structure RenderOutcome where
  result : FlowResult
  mapAttempted : Bool
  spawned : Option MediaSample
deriving Repr, DecidableEq

/-- `BaseSinkImpl::render` (imp.rs lines 489-555). In live mode with zero
peers it returns Ok before mapping. Otherwise it maps the buffer (Error on
map failure), and only when peers exist, a video track is present and the
runtime is available does it spawn a sample write; in every remaining case
it logs and returns Ok. -/
def render (is_live : Bool) (st : RenderState) (buf : GstBuffer) : RenderOutcome :=
  if is_live && st.num_peers == 0 then
    { result := .ok, mapAttempted := false, spawned := none }
  else
    match buf.mapResult with
    | none => { result := .error, mapAttempted := true, spawned := none }
    | some data =>
      if st.num_peers > 0 then
        if st.video_track then
          if st.runtime then
            { result := .ok, mapAttempted := true
              spawned := some { data := data, duration := buf.duration.getD 33333333 } }
          else { result := .ok, mapAttempted := true, spawned := none }
        else { result := .ok, mapAttempted := true, spawned := none }
      else { result := .ok, mapAttempted := true, spawned := none }

/-! ### Stop (imp.rs lines 453-487) -/

/-- The full element `struct State` (imp.rs lines 219-228), with handles
and components modelled by their presence. -/
structure ElementState where
  runtime : Bool
  server_handle : Bool
  peer_connections : List String
  unblock_tx : Bool
  unblock_rx : Bool
  video_track : Bool
  webrtc_config : Bool
deriving Repr, DecidableEq

structure StopOutcome where
  state : ElementState
  aborted_server : Bool
  success : Bool
deriving Repr, DecidableEq

/-- `BaseSinkImpl::stop` (imp.rs lines 453-487): takes and aborts the
server handle when present, clears the peer-connection registry, resets
every other component to `None`, and returns `Ok(())`. -/
def stop (st : ElementState) : StopOutcome :=
  { state := { runtime := false
               server_handle := false
               peer_connections := []
               unblock_tx := false
               unblock_rx := false
               video_track := false
               webrtc_config := false }
    aborted_server := st.server_handle
    success := true }

/-! ## Helper lemmas about the probing loop -/

/-- If some port in `[port, maxPort]` is bindable and the fuel covers the
remaining range, the loop returns a bindable port that is at most the
given one (hence at most the first bindable port). -/
theorem probeLoop_finds (bindOk : Nat → Bool) (maxPort : Nat)
    (hmax : maxPort ≤ 65535) :
    ∀ fuel port q, port ≤ q → q ≤ maxPort → bindOk q = true →
      maxPort + 1 - port ≤ fuel →
      ∃ r, probeLoop bindOk maxPort fuel port = some r ∧
        port ≤ r ∧ r ≤ q ∧ bindOk r = true := by
  intro fuel
  induction fuel with
  | zero =>
    intro port q hpq hqm _ hfuel
    omega
  | succ n ih =>
    intro port q hpq hqm hb hfuel
    have hpm : port ≤ maxPort := le_trans hpq hqm
    by_cases hbp : bindOk port = true
    · refine ⟨port, ?_, le_refl _, hpq, hbp⟩
      unfold probeLoop
      rw [if_pos hpm, if_pos hbp]
    · have hlt : port < q := by
        rcases Nat.lt_or_ge port q with h | h
        · exact h
        · exact absurd (le_antisymm hpq h ▸ hb) hbp
      have hne : port ≠ 65535 := by omega
      obtain ⟨r, hr, hrp, hrq, hrb⟩ :=
        ih (port + 1) q (by omega) hqm hb (by omega)
      refine ⟨r, ?_, by omega, hrq, hrb⟩
      unfold probeLoop
      rw [if_pos hpm, if_neg hbp, if_neg hne]
      exact hr

/-- If no port in `[port, maxPort]` is bindable, the loop fails. -/
theorem probeLoop_all_fail (bindOk : Nat → Bool) (maxPort : Nat) :
    ∀ fuel port, (∀ j, port ≤ j → j ≤ maxPort → bindOk j = false) →
      probeLoop bindOk maxPort fuel port = none := by
  intro fuel
  induction fuel with
  | zero => intro port _; rfl
  | succ n ih =>
    intro port h
    unfold probeLoop
    by_cases hpm : port ≤ maxPort
    · rw [if_pos hpm]
      have hbp : ¬ bindOk port = true := by
        rw [h port (le_refl _) hpm]; simp
      rw [if_neg hbp]
      by_cases h65 : port = 65535
      · rw [if_pos h65]
      · rw [if_neg h65]
        exact ih (port + 1) (fun j hj hjm => h j (by omega) hjm)
    · rw [if_neg hpm]

/-- C2: port acquisition. For a requested port of 0 the ephemeral port
the OS assigned (positive) is returned. For an available P > 0, P itself
is returned. If P is occupied but some P+k with 1 ≤ k ≤ 100 is free, the
result is the first available port in the probe range and lies in
[P+1, P+100]. If every port in [P, min(P+100, 65535)] is occupied, the
function returns an error. -/
theorem C2_port_acquisition (bindOk : Nat → Bool) (q P k : Nat) :
    (0 < q → find_available_port bindOk (some q) 0 = some q ∧ 0 < q) ∧
    (0 < P → P ≤ 65535 → bindOk P = true →
      find_available_port bindOk none P = some P) ∧
    (0 < P → bindOk P = false → 1 ≤ k → k ≤ 100 → P + k ≤ 65535 →
      bindOk (P + k) = true →
      ∃ r, find_available_port bindOk none P = some r ∧
        P + 1 ≤ r ∧ r ≤ P + 100 ∧ bindOk r = true ∧
        ∀ j, P ≤ j → j ≤ min (P + 100) 65535 → bindOk j = true → r ≤ j) ∧
    (0 < P → (∀ j, P ≤ j → j ≤ min (P + 100) 65535 → bindOk j = false) →
      find_available_port bindOk none P = none) := by
  refine ⟨fun hq => ⟨by simp [find_available_port], hq⟩, ?_, ?_, ?_⟩
  · intro hP hP65 hbP
    unfold find_available_port
    rw [if_neg (by omega)]
    obtain ⟨r, hr, hrp, hrq, _⟩ :=
      probeLoop_finds bindOk (min (P + 100) 65535) (le_min_iff.mp (le_refl _)).2
        (min (P + 100) 65535 + 1 - P) P P (le_refl _) (by omega) hbP (le_refl _)
    have : r = P := le_antisymm hrq hrp
    rw [hr, this]
  · intro hP hbP hk1 hk100 hk65 hbPk
    have hmax : min (P + 100) 65535 ≤ 65535 := min_le_right _ _
    obtain ⟨r, hr, hrp, hrq, hrb⟩ :=
      probeLoop_finds bindOk (min (P + 100) 65535) hmax
        (min (P + 100) 65535 + 1 - P) P (P + k) (by omega) (by omega) hbPk (le_refl _)
    have hrne : r ≠ P := fun h => by rw [h, hbP] at hrb; exact Bool.false_ne_true hrb
    refine ⟨r, ?_, by omega, by omega, hrb, ?_⟩
    · unfold find_available_port
      rw [if_neg (by omega)]
      exact hr
    · intro j hPj hjm hbj
      obtain ⟨r', hr', _, hr'j, _⟩ :=
        probeLoop_finds bindOk (min (P + 100) 65535) hmax
          (min (P + 100) 65535 + 1 - P) P j hPj hjm hbj (le_refl _)
      have : r = r' := by
        have := hr.symm.trans hr'
        exact Option.some.inj this
      omega
  · intro hP hall
    unfold find_available_port
    rw [if_neg (by omega)]
    exact probeLoop_all_fail bindOk (min (P + 100) 65535) _ P hall

/-- C2 witness: the theorem applied at concrete inputs. With only port
9125 bindable, requesting 0 with ephemeral port 5 yields 5; with every
port bindable, requesting 9124 yields 9124; with only 9125 bindable,
requesting the occupied 9124 yields a port in [9125, 9224]; with no port
bindable, requesting 9124 fails. -/
theorem C2_port_acquisition_witness :
    (find_available_port (fun n => decide (n = 9125)) (some 5) 0 = some 5 ∧ 0 < 5) ∧
    (find_available_port (fun _ => true) none 9124 = some 9124) ∧
    (∃ r, find_available_port (fun n => decide (n = 9125)) none 9124 = some r ∧
      9124 + 1 ≤ r ∧ r ≤ 9124 + 100 ∧ decide (r = 9125) = true ∧
      ∀ j, 9124 ≤ j → j ≤ min (9124 + 100) 65535 → decide (j = 9125) = true → r ≤ j) ∧
    (find_available_port (fun _ => false) none 9124 = none) := by
  refine ⟨?_, ?_, ?_, ?_⟩
  · exact (C2_port_acquisition (fun n => decide (n = 9125)) 5 9124 1).1 (by decide)
  · exact (C2_port_acquisition (fun _ => true) 5 9124 1).2.1 (by decide) (by decide) rfl
  · exact (C2_port_acquisition (fun n => decide (n = 9125)) 5 9124 1).2.2.1
      (by decide) (by decide) (by decide) (by decide) (by decide) (by decide)
  · exact (C2_port_acquisition (fun _ => false) 5 9124 1).2.2.2
      (by decide) (fun j _ _ => rfl)

/-- C1 counterexample: the element's pad-template list contains no
template named "sink_%u" and no request template; its only template is
named "sink" with presence Always, and its caps name only video/x-h264
(no h265, vp8, vp9 or application/x-rtp entries). This refutes the claim
that the template is "sink_%u" with presence request accepting the five
formats. -/
theorem C1_counterexample :
    pad_templates.map PadTemplate.name = ["sink"] ∧
    "sink_%u" ∉ pad_templates.map PadTemplate.name ∧
    pad_templates.map PadTemplate.presence = [.always] ∧
    PadPresence.request ∉ pad_templates.map PadTemplate.presence ∧
    pad_templates.map (fun t => t.caps.map CapsStructure.name) = [["video/x-h264"]] := by
  refine ⟨rfl, by decide, rfl, by decide, rfl⟩

/-- C1 (amended): the element has exactly one static pad template, named
"sink", direction sink, presence Always, accepting only video/x-h264 with
stream-format=byte-stream and alignment=au. -/
theorem C1_pad_template :
    pad_templates.map PadTemplate.name = ["sink"] ∧
    pad_templates.map PadTemplate.direction = [.sink] ∧
    pad_templates.map PadTemplate.presence = [.always] ∧
    pad_templates.map PadTemplate.caps =
      [[{ name := "video/x-h264"
          fields := [("stream-format", "byte-stream"), ("alignment", "au")] }]] :=
  ⟨rfl, rfl, rfl, rfl⟩

/-- C3 counterexample: a successfully handled offer (all steps succeed)
yields status 200, but the serialised response body has exactly the
fields `answer` and `session_id`; there is no `negotiated_codec` field.
This refutes the claim that the 200 body has the three fields answer,
session_id and negotiated_codec. -/
theorem C3_counterexample :
    (handle_session_request
      { register_codecs_ok := true, register_interceptors_ok := true
        new_peer_connection_ok := true, add_track_ok := true
        offer_parse_ok := true, set_remote_ok := true
        create_answer_ok := true, set_local_ok := true
        local_description := some "ans", session_id := "sid" }
      { peer_connections := [], unblock_tx := false
        video_track := true, webrtc_config := true }).result =
      .ok { answer := "ans", session_id := "sid" } ∧
    session_http_status (.ok { answer := "ans", session_id := "sid" }) = 200 ∧
    (serializeSessionResponse { answer := "ans", session_id := "sid" }).map
      Prod.fst = ["answer", "session_id"] ∧
    "negotiated_codec" ∉
      (serializeSessionResponse { answer := "ans", session_id := "sid" }).map
        Prod.fst := by
  refine ⟨rfl, rfl, rfl, by decide⟩

/-- A successful run of the step chain pins down every step outcome; in
particular the returned answer is the read-back local description. -/
theorem session_steps_ok (env : SessionEnv) (st : ServerState) (a : String)
    (h : session_steps env st = .ok a) :
    env.local_description = some a ∧ st.webrtc_config = true ∧
    st.video_track = true := by
  by_cases h1 : st.webrtc_config = false
  · rw [session_steps, if_pos h1] at h; exact Except.noConfusion h
  by_cases h2 : st.video_track = false
  · rw [session_steps, if_neg h1, if_pos h2] at h; exact Except.noConfusion h
  by_cases h3 : env.register_codecs_ok = false
  · rw [session_steps, if_neg h1, if_neg h2, if_pos h3] at h
    exact Except.noConfusion h
  by_cases h4 : env.register_interceptors_ok = false
  · rw [session_steps, if_neg h1, if_neg h2, if_neg h3, if_pos h4] at h
    exact Except.noConfusion h
  by_cases h5 : env.new_peer_connection_ok = false
  · rw [session_steps, if_neg h1, if_neg h2, if_neg h3, if_neg h4, if_pos h5] at h
    exact Except.noConfusion h
  by_cases h6 : env.add_track_ok = false
  · rw [session_steps, if_neg h1, if_neg h2, if_neg h3, if_neg h4, if_neg h5,
      if_pos h6] at h
    exact Except.noConfusion h
  by_cases h7 : env.offer_parse_ok = false
  · rw [session_steps, if_neg h1, if_neg h2, if_neg h3, if_neg h4, if_neg h5,
      if_neg h6, if_pos h7] at h
    exact Except.noConfusion h
  by_cases h8 : env.set_remote_ok = false
  · rw [session_steps, if_neg h1, if_neg h2, if_neg h3, if_neg h4, if_neg h5,
      if_neg h6, if_neg h7, if_pos h8] at h
    exact Except.noConfusion h
  by_cases h9 : env.create_answer_ok = false
  · rw [session_steps, if_neg h1, if_neg h2, if_neg h3, if_neg h4, if_neg h5,
      if_neg h6, if_neg h7, if_neg h8, if_pos h9] at h
    exact Except.noConfusion h
  by_cases h10 : env.set_local_ok = false
  · rw [session_steps, if_neg h1, if_neg h2, if_neg h3, if_neg h4, if_neg h5,
      if_neg h6, if_neg h7, if_neg h8, if_neg h9, if_pos h10] at h
    exact Except.noConfusion h
  rw [session_steps, if_neg h1, if_neg h2, if_neg h3, if_neg h4, if_neg h5,
    if_neg h6, if_neg h7, if_neg h8, if_neg h9, if_neg h10] at h
  have hcfg : st.webrtc_config = true := by
    cases hb : st.webrtc_config
    · exact absurd hb h1
    · rfl
  have htrk : st.video_track = true := by
    cases hb : st.video_track
    · exact absurd hb h2
    · rfl
  split at h
  · exact Except.noConfusion h
  next answer heq =>
    exact ⟨by rw [heq, Except.ok.inj h], hcfg, htrk⟩

/-- C3 (amended): for every offer handled successfully, the response
carries the finalised answer (the read-back local description) and the
generated session id, its JSON body serialises to exactly the two fields
`answer` and `session_id`, and the HTTP status is 200. -/
theorem C3_session_response (env : SessionEnv) (st : ServerState)
    (r : SessionResponse)
    (h : (handle_session_request env st).result = .ok r) :
    r.session_id = env.session_id ∧
    env.local_description = some r.answer ∧
    (serializeSessionResponse r).map Prod.fst = ["answer", "session_id"] ∧
    session_http_status (handle_session_request env st).result = 200 := by
  rcases hs : session_steps env st with e | a
  · rw [handle_session_request, hs] at h
    exact Except.noConfusion h
  · rw [handle_session_request, hs] at h
    have hr : ({ answer := a, session_id := env.session_id } : SessionResponse) = r :=
      Except.ok.inj h
    obtain ⟨hld, -, -⟩ := session_steps_ok env st a hs
    subst hr
    refine ⟨rfl, by rw [hld], rfl, ?_⟩
    rw [handle_session_request, hs]
    rfl

/-- C3 witness: the amended theorem applied to a concrete all-steps-
succeed environment. -/
theorem C3_session_response_witness :
    ({ answer := "ans", session_id := "sid" } : SessionResponse).session_id = "sid" ∧
    (some "ans" : Option String) =
      some ({ answer := "ans", session_id := "sid" } : SessionResponse).answer ∧
    (serializeSessionResponse { answer := "ans", session_id := "sid" }).map
      Prod.fst = ["answer", "session_id"] ∧
    session_http_status (handle_session_request
      { register_codecs_ok := true, register_interceptors_ok := true
        new_peer_connection_ok := true, add_track_ok := true
        offer_parse_ok := true, set_remote_ok := true
        create_answer_ok := true, set_local_ok := true
        local_description := some "ans", session_id := "sid" }
      { peer_connections := [], unblock_tx := true
        video_track := true, webrtc_config := true }).result = 200 :=
  C3_session_response
    { register_codecs_ok := true, register_interceptors_ok := true
      new_peer_connection_ok := true, add_track_ok := true
      offer_parse_ok := true, set_remote_ok := true
      create_answer_ok := true, set_local_ok := true
      local_description := some "ans", session_id := "sid" }
    { peer_connections := [], unblock_tx := true
      video_track := true, webrtc_config := true }
    { answer := "ans", session_id := "sid" } rfl

/-- C4: with is_live = true and zero peers, render returns Ok without
attempting to map the buffer and spawns no write; with is_live = false
and zero peers and a mappable buffer, it maps the buffer, spawns no
write (the data is dropped), and still returns Ok. -/
theorem C4_live_mode (st : RenderState) (buf : GstBuffer) (d : List Nat) :
    (st.num_peers = 0 →
      render true st buf =
        { result := .ok, mapAttempted := false, spawned := none }) ∧
    (st.num_peers = 0 → buf.mapResult = some d →
      render false st buf =
        { result := .ok, mapAttempted := true, spawned := none }) := by
  constructor
  · intro h0
    simp [render, h0]
  · intro h0 hm
    simp [render, h0, hm]

/-- C4 witness: the theorem applied to a concrete zero-peer state and a
mappable one-byte buffer, in both live and non-live mode. -/
theorem C4_live_mode_witness :
    render true { num_peers := 0, video_track := true, runtime := true }
        { mapResult := some [7], duration := none } =
      { result := .ok, mapAttempted := false, spawned := none } ∧
    render false { num_peers := 0, video_track := true, runtime := true }
        { mapResult := some [7], duration := none } =
      { result := .ok, mapAttempted := true, spawned := none } :=
  ⟨(C4_live_mode _ _ [7]).1 rfl, (C4_live_mode _ _ [7]).2 rfl rfl⟩

/-- C5 counterexample: with one peer attached, no video track in the
state, and a buffer that maps successfully, render returns Ok — not the
failure the claim requires. -/
theorem C5_counterexample :
    (render false { num_peers := 1, video_track := false, runtime := true }
        { mapResult := some [0], duration := none }).result = .ok ∧
    (render false { num_peers := 1, video_track := false, runtime := true }
        { mapResult := some [0], duration := none }).result ≠ .error :=
  ⟨rfl, by decide⟩

/-- C5 (amended): when no video track exists in the state, render logs
and continues: it spawns no write and returns Ok whenever the buffer
maps successfully; failure never arises from the missing track. -/
theorem C5_no_track (is_live : Bool) (st : RenderState) (buf : GstBuffer)
    (d : List Nat) (htrk : st.video_track = false)
    (hm : buf.mapResult = some d) :
    (render is_live st buf).result = .ok ∧
    (render is_live st buf).spawned = none := by
  by_cases hl : (is_live && st.num_peers == 0) = true
  · simp [render, hl]
  · simp [render, hl, hm, htrk]

/-- C5 witness: the amended theorem applied to a concrete one-peer state
with no track. -/
theorem C5_no_track_witness :
    (render false { num_peers := 1, video_track := false, runtime := true }
        { mapResult := some [3], duration := some 100 }).result = .ok ∧
    (render false { num_peers := 1, video_track := false, runtime := true }
        { mapResult := some [3], duration := some 100 }).spawned = none :=
  C5_no_track false _ _ [3] rfl rfl

/-- C6: whenever handle_session_request fails — missing config or track,
or any failing step through the local-description read-back — the server
state (in particular the peer registry) is unchanged, nothing is sent on
the peer-count channel, so the session is not retained anywhere, and the
HTTP layer surfaces the error as status 500. -/
theorem C6_failure_semantics (env : SessionEnv) (st : ServerState) (e : String)
    (h : (handle_session_request env st).result = .error e) :
    (handle_session_request env st).state = st ∧
    (handle_session_request env st).sent_counts = [] ∧
    session_http_status (handle_session_request env st).result = 500 := by
  rcases hs : session_steps env st with e' | a
  · rw [handle_session_request, hs]
    exact ⟨rfl, rfl, rfl⟩
  · rw [handle_session_request, hs] at h
    exact Except.noConfusion h

/-- C6 witness: the theorem applied to a concrete state missing the
WebRTC config, with a prior session in the registry. -/
theorem C6_failure_semantics_witness :
    (handle_session_request
      { register_codecs_ok := true, register_interceptors_ok := true
        new_peer_connection_ok := true, add_track_ok := true
        offer_parse_ok := true, set_remote_ok := true
        create_answer_ok := true, set_local_ok := true
        local_description := some "ans", session_id := "sid" }
      { peer_connections := ["old"], unblock_tx := true
        video_track := true, webrtc_config := false }).state =
      { peer_connections := ["old"], unblock_tx := true
        video_track := true, webrtc_config := false } ∧
    (handle_session_request
      { register_codecs_ok := true, register_interceptors_ok := true
        new_peer_connection_ok := true, add_track_ok := true
        offer_parse_ok := true, set_remote_ok := true
        create_answer_ok := true, set_local_ok := true
        local_description := some "ans", session_id := "sid" }
      { peer_connections := ["old"], unblock_tx := true
        video_track := true, webrtc_config := false }).sent_counts = [] ∧
    session_http_status (handle_session_request
      { register_codecs_ok := true, register_interceptors_ok := true
        new_peer_connection_ok := true, add_track_ok := true
        offer_parse_ok := true, set_remote_ok := true
        create_answer_ok := true, set_local_ok := true
        local_description := some "ans", session_id := "sid" }
      { peer_connections := ["old"], unblock_tx := true
        video_track := true, webrtc_config := false }).result = 500 :=
  C6_failure_semantics _ _ "WebRTC config not initialized" rfl

/-- C7: the connection-state observer removes the session and try-sends
the updated registry size exactly on Disconnected, Failed and Closed; on
every other state it leaves the registry untouched and sends nothing. -/
theorem C7_state_change_observer (sid : String) (s : RTCPeerConnectionState)
    (st : ServerState) :
    ((s = .disconnected ∨ s = .failed ∨ s = .closed) →
      on_peer_connection_state_change sid s st =
        ({ st with peer_connections := registryRemove sid st.peer_connections },
         if st.unblock_tx then
           [(registryRemove sid st.peer_connections).length]
         else [])) ∧
    (s ≠ .disconnected → s ≠ .failed → s ≠ .closed →
      on_peer_connection_state_change sid s st = (st, [])) := by
  constructor
  · rintro (rfl | rfl | rfl) <;> rfl
  · intro h1 h2 h3
    cases s
    · rfl
    · rfl
    · rfl
    · rfl
    · exact absurd rfl h1
    · exact absurd rfl h2
    · exact absurd rfl h3

/-- C7 witness: the theorem applied to a concrete one-session registry,
observing a Closed transition (evicts, sends the new count 0) and a
Connected transition (no change, nothing sent). -/
theorem C7_state_change_observer_witness :
    (on_peer_connection_state_change "a" .closed
        { peer_connections := ["a"], unblock_tx := true
          video_track := true, webrtc_config := true } =
      ({ peer_connections := registryRemove "a" ["a"], unblock_tx := true
         video_track := true, webrtc_config := true },
       if true then [(registryRemove "a" ["a"]).length] else [])) ∧
    (on_peer_connection_state_change "a" .connected
        { peer_connections := ["a"], unblock_tx := true
          video_track := true, webrtc_config := true } =
      ({ peer_connections := ["a"], unblock_tx := true
         video_track := true, webrtc_config := true }, [])) :=
  ⟨(C7_state_change_observer "a" .closed _).1 (Or.inr (Or.inr rfl)),
   (C7_state_change_observer "a" .connected _).2
     (by decide) (by decide) (by decide)⟩

/-- C8: after stop, the server handle has been taken (and aborted exactly
when it was present), the peer-connection registry is empty, and the
video track, WebRTC config, runtime and both peer-count channel endpoints
are cleared; stop always returns success. -/
theorem C8_stop_clears_state (st : ElementState) :
    (stop st).state =
      { runtime := false, server_handle := false, peer_connections := []
        unblock_tx := false, unblock_rx := false, video_track := false
        webrtc_config := false } ∧
    (stop st).aborted_server = st.server_handle ∧
    (stop st).success = true :=
  ⟨rfl, rfl, rfl⟩

/-- C9: render returns an error exactly when it reaches the buffer-map
step and mapping fails — i.e. the buffer is unmappable and the live-mode
zero-peer early return does not apply. In every other case, including
zero peers, a missing video track, or a missing runtime, it returns Ok,
so track-write problems never propagate a failure to the pipeline. -/
theorem C9_render_error_iff (is_live : Bool) (st : RenderState)
    (buf : GstBuffer) :
    (render is_live st buf).result = .error ↔
      buf.mapResult = none ∧ ¬(is_live = true ∧ st.num_peers = 0) := by
  rcases st with ⟨np, tv, rt⟩
  rcases buf with ⟨mr, dur⟩
  cases is_live <;> cases tv <;> cases rt <;> rcases mr with _ | d <;>
    rcases np with _ | np <;> simp [render]

/-- C10: a fresh element's settings default to port 8091, STUN server
"stun:stun.l.google.com:19302" and is_live = false, and property reads
before any set report exactly these values; in particular the defaults
are not port 0 or an empty STUN string. -/
theorem C10_default_settings :
    Settings.default =
      { port := 8091, stun_server := "stun:stun.l.google.com:19302"
        is_live := false } ∧
    getProperty Settings.default "port" = some (.uint 8091) ∧
    getProperty Settings.default "stun-server" =
      some (.str "stun:stun.l.google.com:19302") ∧
    getProperty Settings.default "is-live" = some (.boolean false) ∧
    Settings.default.port ≠ 0 ∧ Settings.default.stun_server ≠ "" :=
  ⟨rfl, rfl, rfl, rfl, by decide, by decide⟩

end Websink
